import Mathlib

/-!
Shallow embedding of the unix backend of a Kerberos 5 security-context
wrapper (src/src/unix.rs).  Byte buffers (the Rust BytesMut type) are
modelled as `List Nat`; the underlying GSSAPI mechanism (libgssapi) is an
external collaborator and is modelled as an abstract record of operations
returning `Except GssError`.  Rust panics that the wrapper itself can
trigger (slice out of bounds, Option unwrap, usize underflow) are modelled
explicitly, since the wrapper -- not the mechanism -- is responsible for
avoiding them.
-/

/-- Major status flags of the underlying mechanism (libgssapi MajorFlags);
only the flags the wrapper itself mentions are distinguished. -/
inductive MajorFlags where
  | GSS_S_DEFECTIVE_TOKEN
  | GSS_S_COMPLETE
  | otherFlag (code : Nat)
  deriving DecidableEq

/-- Mechanism-level error (libgssapi Error with major and minor codes). -/
structure GssError where
  major : MajorFlags
  minor : Nat
  deriving DecidableEq

/-- Result of the mechanism call ctx.unwrap_iov on a Stream plus Data iov
pair: the transform rewrites the stream region in place (`stream` is its
new contents), points the Data iov at the recovered plaintext of length
`dataLen` inside it, and `hdrLen` is the result of the pointer-offset
computation iov0.header_length(iov1), which can fail (None). -/
structure UnwrapIovOut where
  hdrLen : Option Nat
  dataLen : Nat
  stream : List Nat
  deriving DecidableEq

/-- Abstract model of the libgssapi SecurityContext operations the wrapper
uses.  `wrap` and `unwrap` are the whole-message transforms; `wrapIovLength`
is the length-only probe (given the encrypt flag and the data length it
reports header, padding and trailer lengths); `wrapIov` is the in-place
four-segment transform, returning the new contents of the four buffers. -/
structure SecurityContext where
  wrap : Bool → List Nat → Except GssError (List Nat)
  unwrap : List Nat → Except GssError (List Nat)
  wrapIovLength : Bool → Nat → Except GssError (Nat × Nat × Nat)
  wrapIov : Bool → List Nat → List Nat → List Nat → List Nat →
    Except GssError (List Nat × List Nat × List Nat × List Nat)
  unwrapIov : List Nat → Except GssError UnwrapIovOut

/-- Error outcome of a wrapper call: either a mechanism error propagated by
the question-mark operator, or a Rust panic of the wrapper itself. -/
inductive RtError where
  | gss (e : GssError)
  | panic
  deriving DecidableEq

/-- BytesMut::resize(n, 0): truncate to n bytes, or grow to n bytes filling
the newly added bytes with zero. -/
def resize (b : List Nat) (n : Nat) : List Nat :=
  b.take n ++ List.replicate (n - b.length) 0

/-- wrap_iov under cfg(feature = "krb5_iov") (src/src/unix.rs lines 18-44):
probe the mechanism with wrap_iov_length for the exact header, padding and
trailer lengths given the current data length, resize those three buffers
to the probed lengths, then run the in-place four-segment transform. -/
def wrap_iov_seg (ctx : SecurityContext) (encrypt : Bool)
    (header data padding trailer : List Nat) :
    Except GssError (List Nat × List Nat × List Nat × List Nat) :=
  match ctx.wrapIovLength encrypt data.length with
  | .error e => .error e
  | .ok lens =>
    ctx.wrapIov encrypt (resize header lens.1) data (resize padding lens.2.1)
      (resize trailer lens.2.2)

/-- wrap_iov under cfg(not(feature = "krb5_iov")) (src/src/unix.rs lines
46-58): wrap the data as one whole-message token, clear the data buffer and
refill it with the token; the header, padding and trailer arguments are
unused (left exactly as passed in). -/
def wrap_iov_blob (ctx : SecurityContext) (encrypt : Bool)
    (header data padding trailer : List Nat) :
    Except GssError (List Nat × List Nat × List Nat × List Nat) :=
  match ctx.wrap encrypt data with
  | .error e => .error e
  | .ok token => .ok (header, token, padding, trailer)

/-- unwrap_iov under cfg(feature = "krb5_iov") (src/src/unix.rs lines
60-76).  The result pairs the returned plaintext buffer with the state of
msg after the call.  Panic points of the Rust code are modelled in source
order: the slice msg[0..len] when len exceeds the buffer, the Option unwrap
on header_length, advance(hdr_len) past the remaining bytes, split_to with
data_len past the remaining bytes, the usize subtraction
len - hdr_len - data_len (underflow panics in debug builds, and in release
builds the wrapped value makes the final advance panic), and the final
advance past the remaining bytes. -/
def unwrap_iov_seg (ctx : SecurityContext) (len : Nat) (msg : List Nat) :
    Except RtError (List Nat × List Nat) :=
  if len ≤ msg.length then
    match ctx.unwrapIov (msg.take len) with
    | .error e => .error (.gss e)
    | .ok r =>
      match r.hdrLen with
      | none => .error .panic
      | some hdr_len =>
        let msg1 := r.stream ++ msg.drop len
        if hdr_len ≤ msg1.length then
          if r.dataLen ≤ (msg1.drop hdr_len).length then
            if hdr_len + r.dataLen ≤ len then
              if len - hdr_len - r.dataLen ≤
                  ((msg1.drop hdr_len).drop r.dataLen).length then
                .ok ((msg1.drop hdr_len).take r.dataLen,
                  ((msg1.drop hdr_len).drop r.dataLen).drop
                    (len - hdr_len - r.dataLen))
              else .error .panic
            else .error .panic
          else .error .panic
        else .error .panic
  else .error .panic

/-- unwrap_iov under cfg(not(feature = "krb5_iov")) (src/src/unix.rs lines
78-85): split off exactly the first len bytes as the protected token, run
the whole-message inverse transform, clear the split-off buffer and refill
it with the plaintext.  `none` models the split_to panic when len exceeds
the buffer; otherwise the pair holds the call result and the state of msg
after the call (advanced by len even when the mechanism fails). -/
def unwrap_iov_blob (ctx : SecurityContext) (len : Nat) (msg : List Nat) :
    Option ((Except GssError (List Nat)) × List Nat) :=
  if len ≤ msg.length then
    match ctx.unwrap (msg.take len) with
    | .error e => some (.error e, msg.drop len)
    | .ok decrypted => some (.ok decrypted, msg.drop len)
  else none

/-- Round trip of a plaintext through the single-blob strategy: wrap with
empty header, padding and trailer buffers, then feed the concatenation of
the four resulting segments, with its exact total length, to unwrap. -/
def roundTripBlob (ctx : SecurityContext) (encrypt : Bool) (m : List Nat) :
    Option (List Nat) :=
  match wrap_iov_blob ctx encrypt [] m [] [] with
  | .error _ => none
  | .ok (h, d, p, t) =>
    match unwrap_iov_blob ctx (h ++ d ++ p ++ t).length (h ++ d ++ p ++ t) with
    | some (.ok out, _) => some out
    | _ => none

/-- Round trip of a plaintext through the segmented strategy: wrap with
empty header, padding and trailer buffers, then feed the concatenation of
the four resulting segments, with its exact total length, to unwrap. -/
def roundTripSeg (ctx : SecurityContext) (encrypt : Bool) (m : List Nat) :
    Option (List Nat) :=
  match wrap_iov_seg ctx encrypt [] m [] [] with
  | .error _ => none
  | .ok (h, d, p, t) =>
    match unwrap_iov_seg ctx (h ++ d ++ p ++ t).length (h ++ d ++ p ++ t) with
    | .ok (out, _) => some out
    | _ => none

/-- Acceptor-role context (ServerCtx): it owns an underlying mechanism
context, modelled as an abstract state `gssState` together with the
mechanism step function `stepFn` of the wrapped GssServerCtx. -/
structure ServerCtx (σ : Type) where
  stepFn : σ → List Nat → (Except GssError (Option (List Nat))) × σ
  gssState : σ

/-- ServerCtx::step (src/src/unix.rs lines 174-183): with a token it
delegates to the inner mechanism context; with no token it returns the
defective-token error without touching the mechanism. -/
def ServerCtx.step (c : ServerCtx σ) (token : Option (List Nat)) :
    (Except GssError (Option (List Nat))) × ServerCtx σ :=
  match token with
  | some t =>
    let r := c.stepFn c.gssState t
    (r.1, { c with gssState := r.2 })
  | none => (.error ⟨.GSS_S_DEFECTIVE_TOKEN, 0⟩, c)

/-- Object identifiers used by the wrapper; only the two it names are
distinguished. -/
inductive Oid where
  | GSS_MECH_KRB5
  | GSS_NT_KRB5_PRINCIPAL
  | otherOid (n : Nat)
  deriving DecidableEq

/-- Credential usage role (libgssapi CredUsage). -/
inductive CredUsage where
  | Initiate
  | Accept
  | Both
  deriving DecidableEq

/-- A set of mechanism object identifiers (libgssapi OidSet). -/
abbrev OidSet := List Oid

/-- OidSet::new creates an empty set. -/
def OidSet.new : OidSet := []

/-- OidSet::add appends a member to the set. -/
def OidSet.add (s : OidSet) (o : Oid) : OidSet := s ++ [o]

/-- Abstract model of the external libgssapi name and credential calls the
constructors use, plus the acceptor-context constructor of the mechanism
(GssServerCtx::new stores a credential and yields the initial mechanism
state; `serverStep` is its step behaviour). `N` is the opaque Name type,
`C` the opaque Cred type, `σ` the mechanism-internal acceptor state. -/
structure GssApi (N C σ : Type) where
  nameNew : List Nat → Option Oid → Except GssError N
  canonicalize : N → Option Oid → Except GssError N
  credAcquire : Option N → Option Nat → CredUsage → Option OidSet →
    Except GssError C
  serverNew : C → σ
  serverStep : σ → List Nat → (Except GssError (Option (List Nat))) × σ

/-- Initiator-role context (ClientCtx): it wraps the GssClientCtx built by
GssClientCtx::new, which simply stores the acquired credential, the
canonical target name, the requested flags and the chosen mechanism. -/
structure ClientCtx (N C : Type) where
  cred : C
  target : N
  flags : Nat
  mech : Option Oid

/-- The mutual-authentication context flag (CtxFlags::GSS_C_MUTUAL_FLAG). -/
def GSS_C_MUTUAL_FLAG : Nat := 2

/-- Resolution of the optional local principal shared by both constructors
(src/src/unix.rs lines 92-97 and 154-161): absent stays absent; present is
parsed as a krb5 principal name and canonicalized for the krb5 mechanism. -/
def resolvePrincipal (api : GssApi N C σ) (principal : Option (List Nat)) :
    Except GssError (Option N) :=
  match principal with
  | none => .ok none
  | some p =>
    match api.nameNew p (some .GSS_NT_KRB5_PRINCIPAL) with
    | .error e => .error e
    | .ok nm =>
      match api.canonicalize nm (some .GSS_MECH_KRB5) with
      | .error e => .error e
      | .ok nm2 => .ok (some nm2)

/-- Resolution of the required target principal (src/src/unix.rs lines
98-99): parse as a krb5 principal name, then canonicalize. -/
def resolveTarget (api : GssApi N C σ) (targetPrincipal : List Nat) :
    Except GssError N :=
  match api.nameNew targetPrincipal (some .GSS_NT_KRB5_PRINCIPAL) with
  | .error e => .error e
  | .ok t => api.canonicalize t (some .GSS_MECH_KRB5)

/-- ClientCtx::new (src/src/unix.rs lines 91-111): resolve the optional
local principal, resolve the target principal, acquire an initiate-usage
credential restricted to the one-element krb5 mechanism set, and build the
underlying context with the mutual-authentication flag. -/
def ClientCtx.new (api : GssApi N C σ) (principal : Option (List Nat))
    (targetPrincipal : List Nat) : Except GssError (ClientCtx N C) :=
  match resolvePrincipal api principal with
  | .error e => .error e
  | .ok name =>
    match resolveTarget api targetPrincipal with
    | .error e => .error e
    | .ok target =>
      match api.credAcquire name none .Initiate
          (some (OidSet.add OidSet.new .GSS_MECH_KRB5)) with
      | .error e => .error e
      | .ok cred =>
        .ok ⟨cred, target, GSS_C_MUTUAL_FLAG, some .GSS_MECH_KRB5⟩

/-- ServerCtx::new (src/src/unix.rs lines 153-168): resolve the optional
local principal, acquire an accept-usage credential restricted to the
one-element krb5 mechanism set, and wrap the mechanism acceptor context. -/
def ServerCtx.new (api : GssApi N C σ) (principal : Option (List Nat)) :
    Except GssError (ServerCtx σ) :=
  match resolvePrincipal api principal with
  | .error e => .error e
  | .ok name =>
    match api.credAcquire name none .Accept
        (some (OidSet.add OidSet.new .GSS_MECH_KRB5)) with
    | .error e => .error e
    | .ok cred => .ok ⟨api.serverStep, api.serverNew cred⟩

/-- A concrete mechanism used to exhibit the theorems at concrete inputs:
wrap is the identity, the segmented layout is a one-byte header and a
one-byte trailer around the in-place data, and unwrap recovers
accordingly. -/
def idMech : SecurityContext where
  wrap := fun _ m => .ok m
  unwrap := fun t => .ok t
  wrapIovLength := fun _ _ => .ok (1, 0, 1)
  wrapIov := fun _ h d p t => .ok (h, d, p, t)
  unwrapIov := fun s => .ok ⟨some 1, s.length - 2, s⟩

/-- A concrete instance of the external calls in which every operation
succeeds, used to exhibit the constructor theorems at concrete inputs. -/
def okGssApi : GssApi (List Nat) Nat Nat where
  nameNew := fun n _ => .ok n
  canonicalize := fun n _ => .ok n
  credAcquire := fun _ _ _ _ => .ok 7
  serverNew := fun c => c
  serverStep := fun s _ => (.ok none, s)

/-- Helper: resize always yields a buffer of exactly the requested
length. -/
theorem resize_length (b : List Nat) (n : Nat) : (resize b n).length = n := by
  simp [resize]
  omega

/-- Helper: the bytes a resize adds beyond the kept prefix are zeros. -/
theorem resize_drop (b : List Nat) (n : Nat) :
    (resize b n).drop (min b.length n) = List.replicate (n - b.length) 0 := by
  unfold resize
  rw [List.drop_left' (by simp; omega)]

/-- C2: an acceptor stepped with no incoming token always returns the
defective-token handshake error and never a success value, whatever the
current handshake state of the context. -/
theorem serverCtx_step_none_defective_token {σ : Type} (c : ServerCtx σ) :
    c.step none = (.error ⟨.GSS_S_DEFECTIVE_TOKEN, 0⟩, c) ∧
    ∀ r : Option (List Nat), (c.step none).1 ≠ .ok r := by
  refine ⟨rfl, ?_⟩
  intro r h
  simp [ServerCtx.step] at h

/-- C10: the defective-token error on a token-less acceptor step is built
locally: the mechanism step function is not invoked and the internal
mechanism state is returned unchanged. -/
theorem serverCtx_step_none_state_unchanged {σ : Type} (c : ServerCtx σ) :
    (c.step none).2 = c ∧ (c.step none).2.gssState = c.gssState := by
  exact ⟨rfl, rfl⟩

/-- C7: for both constructors, a context value is produced exactly when
every name-resolution and credential-acquisition step succeeded; any
failing step makes the whole construction return an error. -/
theorem ctx_new_ok_iff_every_step_ok {N C σ : Type} (api : GssApi N C σ)
    (principal : Option (List Nat)) (targetPrincipal : List Nat) :
    ((∃ c, ClientCtx.new api principal targetPrincipal = .ok c) ↔
      (∃ name, resolvePrincipal api principal = .ok name ∧
        (∃ target, resolveTarget api targetPrincipal = .ok target) ∧
        (∃ cred, api.credAcquire name none .Initiate
          (some (OidSet.add OidSet.new .GSS_MECH_KRB5)) = .ok cred))) ∧
    ((∃ c, ServerCtx.new api principal = .ok c) ↔
      (∃ name, resolvePrincipal api principal = .ok name ∧
        (∃ cred, api.credAcquire name none .Accept
          (some (OidSet.add OidSet.new .GSS_MECH_KRB5)) = .ok cred))) := by
  constructor
  · constructor
    · rintro ⟨c, hc⟩
      unfold ClientCtx.new at hc
      split at hc
      · exact Except.noConfusion hc
      · rename_i name hn
        split at hc
        · exact Except.noConfusion hc
        · rename_i target ht
          split at hc
          · exact Except.noConfusion hc
          · rename_i cred hcr
            exact ⟨name, hn, ⟨target, ht⟩, ⟨cred, hcr⟩⟩
    · rintro ⟨name, hn, ⟨target, ht⟩, ⟨cred, hcr⟩⟩
      refine ⟨⟨cred, target, GSS_C_MUTUAL_FLAG, some .GSS_MECH_KRB5⟩, ?_⟩
      unfold ClientCtx.new
      simp [hn, ht, hcr]
  · constructor
    · rintro ⟨c, hc⟩
      unfold ServerCtx.new at hc
      split at hc
      · exact Except.noConfusion hc
      · rename_i name hn
        split at hc
        · exact Except.noConfusion hc
        · rename_i cred hcr
          exact ⟨name, hn, ⟨cred, hcr⟩⟩
    · rintro ⟨name, hn, ⟨cred, hcr⟩⟩
      refine ⟨⟨api.serverStep, api.serverNew cred⟩, ?_⟩
      unfold ServerCtx.new
      simp [hn, hcr]

/-- C8: every successful initiator construction canonicalizes the target
principal, acquires its credential with Initiate usage over exactly the
one-element krb5 mechanism set, and stores the mutual-authentication flag
and the krb5 mechanism in the built context. -/
theorem clientCtx_new_mutual_krb5 {N C σ : Type} (api : GssApi N C σ)
    (principal : Option (List Nat)) (targetPrincipal : List Nat)
    (c : ClientCtx N C)
    (h : ClientCtx.new api principal targetPrincipal = .ok c) :
    c.flags = GSS_C_MUTUAL_FLAG ∧
    c.mech = some Oid.GSS_MECH_KRB5 ∧
    (∃ t, api.nameNew targetPrincipal (some .GSS_NT_KRB5_PRINCIPAL) = .ok t ∧
      api.canonicalize t (some .GSS_MECH_KRB5) = .ok c.target) ∧
    (∃ name, resolvePrincipal api principal = .ok name ∧
      api.credAcquire name none .Initiate (some [Oid.GSS_MECH_KRB5]) =
        .ok c.cred) ∧
    (OidSet.add OidSet.new Oid.GSS_MECH_KRB5).length = 1 := by
  unfold ClientCtx.new at h
  split at h
  · exact Except.noConfusion h
  · rename_i name hn
    split at h
    · exact Except.noConfusion h
    · rename_i target ht
      split at h
      · exact Except.noConfusion h
      · rename_i cred hcr
        injection h with h2
        subst h2
        unfold resolveTarget at ht
        split at ht
        · exact Except.noConfusion ht
        · rename_i t htn
          exact ⟨rfl, rfl, ⟨t, htn, ht⟩, ⟨name, hn, hcr⟩, rfl⟩

/-- Witness for C8 at a concrete successful construction. -/
theorem clientCtx_new_mutual_krb5_witness :
    ClientCtx.new okGssApi none [1, 2] =
      .ok ⟨7, [1, 2], GSS_C_MUTUAL_FLAG, some Oid.GSS_MECH_KRB5⟩ ∧
    ((⟨7, [1, 2], GSS_C_MUTUAL_FLAG, some Oid.GSS_MECH_KRB5⟩ :
        ClientCtx (List Nat) Nat).flags = GSS_C_MUTUAL_FLAG ∧
      (⟨7, [1, 2], GSS_C_MUTUAL_FLAG, some Oid.GSS_MECH_KRB5⟩ :
        ClientCtx (List Nat) Nat).mech = some Oid.GSS_MECH_KRB5 ∧
      (∃ t, okGssApi.nameNew [1, 2] (some .GSS_NT_KRB5_PRINCIPAL) = .ok t ∧
        okGssApi.canonicalize t (some .GSS_MECH_KRB5) =
          .ok (⟨7, [1, 2], GSS_C_MUTUAL_FLAG, some Oid.GSS_MECH_KRB5⟩ :
            ClientCtx (List Nat) Nat).target) ∧
      (∃ name, resolvePrincipal okGssApi none = .ok name ∧
        okGssApi.credAcquire name none .Initiate (some [Oid.GSS_MECH_KRB5]) =
          .ok (⟨7, [1, 2], GSS_C_MUTUAL_FLAG, some Oid.GSS_MECH_KRB5⟩ :
            ClientCtx (List Nat) Nat).cred) ∧
      (OidSet.add OidSet.new Oid.GSS_MECH_KRB5).length = 1) :=
  ⟨rfl, clientCtx_new_mutual_krb5 okGssApi none [1, 2] _ rfl⟩

/-- Helper: under a successful mechanism call whose in-place stream keeps
the length of the consumed region and whose reported header and data
lengths fit inside len, the segmented unwrap returns exactly the recovered
data region of the transformed stream and advances the source buffer past
exactly len bytes. -/
theorem unwrap_iov_seg_eq (ctx : SecurityContext) (len : Nat)
    (msg S : List Nat) (hd dl : Nat)
    (hlen : len ≤ msg.length)
    (hm : ctx.unwrapIov (msg.take len) = .ok ⟨some hd, dl, S⟩)
    (hs : S.length = len)
    (hfit : hd + dl ≤ len) :
    unwrap_iov_seg ctx len msg = .ok ((S.drop hd).take dl, msg.drop len) := by
  unfold unwrap_iov_seg
  rw [if_pos hlen, hm]
  dsimp only
  rw [if_pos (by simp; omega)]
  rw [if_pos (by simp; omega)]
  rw [if_pos hfit]
  rw [if_pos (by simp; omega)]
  have e1 : ((S ++ msg.drop len).drop hd).take dl = (S.drop hd).take dl := by
    rw [List.drop_append_of_le_length (by omega)]
    rw [List.take_append_of_le_length (by simp; omega)]
  have e2 : (((S ++ msg.drop len).drop hd).drop dl).drop
      (len - hd - dl) = msg.drop len := by
    rw [List.drop_append_of_le_length (by omega)]
    rw [List.drop_append_of_le_length (by simp; omega)]
    rw [List.drop_left' (by simp; omega)]
  rw [e1, e2]

/-- C3: on a successful segmented unwrap reporting header length hd and
data length dl, the returned buffer is exactly the dl recovered plaintext
bytes of the transformed stream, and the source buffer has advanced by
exactly len bytes, leaving any later messages in it intact. -/
theorem unwrap_iov_seg_exact_consumption (ctx : SecurityContext) (len : Nat)
    (msg S : List Nat) (hd dl : Nat)
    (hlen : len ≤ msg.length)
    (hm : ctx.unwrapIov (msg.take len) = .ok ⟨some hd, dl, S⟩)
    (hs : S.length = len)
    (hfit : hd + dl ≤ len) :
    unwrap_iov_seg ctx len msg = .ok ((S.drop hd).take dl, msg.drop len) ∧
    ((S.drop hd).take dl).length = dl := by
  refine ⟨unwrap_iov_seg_eq ctx len msg S hd dl hlen hm hs hfit, ?_⟩
  simp
  omega

/-- Witness for C3 at a concrete five-byte protected message. -/
theorem unwrap_iov_seg_exact_consumption_witness :
    5 ≤ ([0, 1, 2, 3, 0] : List Nat).length ∧
    idMech.unwrapIov (([0, 1, 2, 3, 0] : List Nat).take 5) =
      .ok ⟨some 1, 3, [0, 1, 2, 3, 0]⟩ ∧
    ([0, 1, 2, 3, 0] : List Nat).length = 5 ∧
    1 + 3 ≤ 5 ∧
    (unwrap_iov_seg idMech 5 [0, 1, 2, 3, 0] =
      .ok ((([0, 1, 2, 3, 0] : List Nat).drop 1).take 3,
        ([0, 1, 2, 3, 0] : List Nat).drop 5) ∧
      ((([0, 1, 2, 3, 0] : List Nat).drop 1).take 3).length = 3) :=
  ⟨by decide, rfl, rfl, by decide,
    unwrap_iov_seg_exact_consumption idMech 5 [0, 1, 2, 3, 0]
      [0, 1, 2, 3, 0] 1 3 (by decide) rfl rfl (by decide)⟩

/-- C9: given a successful mechanism call on the in-place stream, the
segmented unwrap is panic free exactly when the header-length computation
yields a value hd and hd plus the data length fits inside len; under that
precondition neither the usize subtraction nor split_to can fail. -/
theorem unwrap_iov_seg_panic_free_iff (ctx : SecurityContext) (len : Nat)
    (msg : List Nat) (ho : Option Nat) (dl : Nat) (S : List Nat)
    (hlen : len ≤ msg.length)
    (hm : ctx.unwrapIov (msg.take len) = .ok ⟨ho, dl, S⟩)
    (hs : S.length = len) :
    (unwrap_iov_seg ctx len msg ≠ .error .panic) ↔
      (∃ hd, ho = some hd ∧ hd + dl ≤ len) := by
  unfold unwrap_iov_seg
  rw [if_pos hlen, hm]
  dsimp only
  cases ho with
  | none => simp
  | some hd =>
    dsimp only
    constructor
    · intro h
      refine ⟨hd, rfl, ?_⟩
      by_contra hnot
      apply h
      split_ifs <;> rfl
    · rintro ⟨hd2, hEq, hle⟩
      injection hEq with hEq2
      subst hEq2
      rw [if_pos (by simp; omega), if_pos (by simp; omega), if_pos hle,
        if_pos (by simp; omega)]
      simp

/-- Witness for C9 at a concrete five-byte protected message. -/
theorem unwrap_iov_seg_panic_free_iff_witness :
    5 ≤ ([0, 1, 2, 3, 0] : List Nat).length ∧
    idMech.unwrapIov (([0, 1, 2, 3, 0] : List Nat).take 5) =
      .ok ⟨some 1, 3, [0, 1, 2, 3, 0]⟩ ∧
    ([0, 1, 2, 3, 0] : List Nat).length = 5 ∧
    ((unwrap_iov_seg idMech 5 [0, 1, 2, 3, 0] ≠ .error .panic) ↔
      (∃ hd, (some 1 : Option Nat) = some hd ∧ hd + 3 ≤ 5)) :=
  ⟨by decide, rfl, rfl,
    unwrap_iov_seg_panic_free_iff idMech 5 [0, 1, 2, 3, 0] (some 1) 3
      [0, 1, 2, 3, 0] (by decide) rfl rfl⟩

/-- C4: the single-blob unwrap passes exactly the first len bytes of msg to
the mechanism as the protected token and removes them from msg whether the
mechanism succeeds or fails, and on success the returned buffer holds
exactly the recovered plaintext. -/
theorem unwrap_iov_blob_splits_and_replaces (ctx : SecurityContext)
    (len : Nat) (msg : List Nat) (hlen : len ≤ msg.length) :
    (∀ d, ctx.unwrap (msg.take len) = .ok d →
      unwrap_iov_blob ctx len msg = some (.ok d, msg.drop len)) ∧
    (∀ e, ctx.unwrap (msg.take len) = .error e →
      unwrap_iov_blob ctx len msg = some (.error e, msg.drop len)) := by
  constructor
  · intro d hd
    unfold unwrap_iov_blob
    rw [if_pos hlen, hd]
  · intro e he
    unfold unwrap_iov_blob
    rw [if_pos hlen, he]

/-- Witness for C4 at a concrete three-byte buffer holding a two-byte
protected message. -/
theorem unwrap_iov_blob_splits_and_replaces_witness :
    2 ≤ ([1, 2, 3] : List Nat).length ∧
    idMech.unwrap (([1, 2, 3] : List Nat).take 2) = .ok [1, 2] ∧
    unwrap_iov_blob idMech 2 [1, 2, 3] =
      some (.ok [1, 2], ([1, 2, 3] : List Nat).drop 2) :=
  ⟨by decide, rfl,
    (unwrap_iov_blob_splits_and_replaces idMech 2 [1, 2, 3] (by decide)).1
      [1, 2] rfl⟩

/-- C5 as stated is false: a single-blob wrap leaves a nonempty header
buffer untouched rather than empty. -/
theorem wrap_iov_blob_header_not_emptied_counterexample :
    wrap_iov_blob idMech true [9] [5] [] [] = .ok ([9], [5], [], []) ∧
    ([9] : List Nat) ≠ [] :=
  ⟨rfl, by simp⟩

/-- C5 amended: the single-blob wrap replaces the data buffer contents with
the single mechanism token and never writes the header, padding or trailer
buffers, so each of them keeps exactly the contents it had on entry; in
particular a buffer that is empty on entry is still empty afterwards. -/
theorem wrap_iov_blob_replaces_data_only (ctx : SecurityContext)
    (encrypt : Bool) (header data padding trailer token : List Nat)
    (h : ctx.wrap encrypt data = .ok token) :
    wrap_iov_blob ctx encrypt header data padding trailer =
      .ok (header, token, padding, trailer) := by
  unfold wrap_iov_blob
  rw [h]

/-- Witness for the amended C5 at a concrete call with empty auxiliary
buffers. -/
theorem wrap_iov_blob_replaces_data_only_witness :
    idMech.wrap true [5, 6] = .ok [5, 6] ∧
    wrap_iov_blob idMech true [] [5, 6] [] [] = .ok ([], [5, 6], [], []) :=
  ⟨rfl, wrap_iov_blob_replaces_data_only idMech true [] [5, 6] [] [] [5, 6] rfl⟩

/-- C6: the segmented wrap first performs the length-only probe for the
current data length and encrypt flag, resizes the header, padding and
trailer buffers to exactly the probed lengths with newly added bytes
zero-filled, and only then invokes the in-place four-segment transform on
the resized buffers. -/
theorem wrap_iov_seg_probe_resize_transform (ctx : SecurityContext)
    (encrypt : Bool) (header data padding trailer : List Nat)
    (hl pl tl : Nat)
    (h : ctx.wrapIovLength encrypt data.length = .ok (hl, pl, tl)) :
    wrap_iov_seg ctx encrypt header data padding trailer =
      ctx.wrapIov encrypt (resize header hl) data (resize padding pl)
        (resize trailer tl) ∧
    (resize header hl).length = hl ∧
    (resize padding pl).length = pl ∧
    (resize trailer tl).length = tl ∧
    (resize header hl).drop (min header.length hl) =
      List.replicate (hl - header.length) 0 ∧
    (resize padding pl).drop (min padding.length pl) =
      List.replicate (pl - padding.length) 0 ∧
    (resize trailer tl).drop (min trailer.length tl) =
      List.replicate (tl - trailer.length) 0 := by
  refine ⟨?_, resize_length header hl, resize_length padding pl,
    resize_length trailer tl, resize_drop header hl, resize_drop padding pl,
    resize_drop trailer tl⟩
  unfold wrap_iov_seg
  rw [h]

/-- Witness for C6 at a concrete probe reporting a one-byte header and a
one-byte trailer. -/
theorem wrap_iov_seg_probe_resize_transform_witness :
    idMech.wrapIovLength true ([5, 6, 7] : List Nat).length = .ok (1, 0, 1) ∧
    (wrap_iov_seg idMech true [] [5, 6, 7] [] [] =
      idMech.wrapIov true (resize [] 1) [5, 6, 7] (resize [] 0)
        (resize [] 1) ∧
      (resize ([] : List Nat) 1).length = 1 ∧
      (resize ([] : List Nat) 0).length = 0 ∧
      (resize ([] : List Nat) 1).length = 1 ∧
      (resize ([] : List Nat) 1).drop (min ([] : List Nat).length 1) =
        List.replicate (1 - ([] : List Nat).length) 0 ∧
      (resize ([] : List Nat) 0).drop (min ([] : List Nat).length 0) =
        List.replicate (0 - ([] : List Nat).length) 0 ∧
      (resize ([] : List Nat) 1).drop (min ([] : List Nat).length 1) =
        List.replicate (1 - ([] : List Nat).length) 0) :=
  ⟨rfl, wrap_iov_seg_probe_resize_transform idMech true [] [5, 6, 7] [] []
    1 0 1 rfl⟩

/-- C1: whenever the mechanism satisfies the GSSAPI round-trip contract for
a plaintext m and an encrypt flag (whole-message wrap and unwrap invert
each other; the length probe and the in-place four-segment transform
succeed; the stream unwrap of the concatenated segments keeps the region
length, fits inside it and recovers m in place), both the segmented and
the single-blob strategies return exactly m from unwrap-of-wrap, and the
two strategies agree on the round trip. -/
theorem round_trip_both_strategies (ctx : SecurityContext) (encrypt : Bool)
    (m tok H D P T S : List Nat) (hl pl tl hd dl : Nat)
    (hwrap : ctx.wrap encrypt m = .ok tok)
    (hunwrap : ctx.unwrap tok = .ok m)
    (hprobe : ctx.wrapIovLength encrypt m.length = .ok (hl, pl, tl))
    (hwiov : ctx.wrapIov encrypt (resize [] hl) m (resize [] pl)
      (resize [] tl) = .ok (H, D, P, T))
    (huiov : ctx.unwrapIov (H ++ D ++ P ++ T) = .ok ⟨some hd, dl, S⟩)
    (hslen : S.length = (H ++ D ++ P ++ T).length)
    (hfit : hd + dl ≤ (H ++ D ++ P ++ T).length)
    (hrec : (S.drop hd).take dl = m) :
    roundTripSeg ctx encrypt m = some m ∧
    roundTripBlob ctx encrypt m = some m ∧
    roundTripSeg ctx encrypt m = roundTripBlob ctx encrypt m := by
  have hblob : roundTripBlob ctx encrypt m = some m := by
    unfold roundTripBlob
    rw [show wrap_iov_blob ctx encrypt [] m [] [] = .ok ([], tok, [], [])
      from by unfold wrap_iov_blob; rw [hwrap]]
    dsimp only
    simp only [List.nil_append, List.append_nil]
    rw [show unwrap_iov_blob ctx tok.length tok =
        some (.ok m, tok.drop tok.length) from by
      unfold unwrap_iov_blob
      rw [if_pos (le_refl tok.length), List.take_length, hunwrap]]
  have hseg : roundTripSeg ctx encrypt m = some m := by
    unfold roundTripSeg
    rw [show wrap_iov_seg ctx encrypt [] m [] [] = .ok (H, D, P, T) from by
      unfold wrap_iov_seg; rw [hprobe]; exact hwiov]
    dsimp only
    rw [unwrap_iov_seg_eq ctx (H ++ D ++ P ++ T).length (H ++ D ++ P ++ T) S
      hd dl (le_refl _) (by rw [List.take_length]; exact huiov) hslen hfit]
    dsimp only
    rw [hrec]
  exact ⟨hseg, hblob, hseg.trans hblob.symm⟩

/-- Witness for C1: the concrete mechanism round-trips the message
[5, 6, 7] under both strategies and the strategies agree. -/
theorem round_trip_both_strategies_witness :
    idMech.wrap true [5, 6, 7] = .ok [5, 6, 7] ∧
    idMech.unwrap [5, 6, 7] = .ok [5, 6, 7] ∧
    idMech.wrapIovLength true ([5, 6, 7] : List Nat).length = .ok (1, 0, 1) ∧
    idMech.wrapIov true (resize [] 1) [5, 6, 7] (resize [] 0) (resize [] 1) =
      .ok ([0], [5, 6, 7], [], [0]) ∧
    idMech.unwrapIov ([0] ++ [5, 6, 7] ++ [] ++ [0]) =
      .ok ⟨some 1, 3, [0, 5, 6, 7, 0]⟩ ∧
    ([0, 5, 6, 7, 0] : List Nat).length =
      (([0] : List Nat) ++ [5, 6, 7] ++ [] ++ [0]).length ∧
    1 + 3 ≤ (([0] : List Nat) ++ [5, 6, 7] ++ [] ++ [0]).length ∧
    (([0, 5, 6, 7, 0] : List Nat).drop 1).take 3 = [5, 6, 7] ∧
    (roundTripSeg idMech true [5, 6, 7] = some [5, 6, 7] ∧
      roundTripBlob idMech true [5, 6, 7] = some [5, 6, 7] ∧
      roundTripSeg idMech true [5, 6, 7] =
        roundTripBlob idMech true [5, 6, 7]) :=
  ⟨rfl, rfl, rfl, rfl, rfl, rfl, by decide, rfl,
    round_trip_both_strategies idMech true [5, 6, 7] [5, 6, 7] [0] [5, 6, 7]
      [] [0] [0, 5, 6, 7, 0] 1 0 1 1 3 rfl rfl rfl rfl rfl rfl (by decide)
      rfl⟩
